import Mathlib

/-!
Verification of the transaction store and date-range query/aggregation
engine of the personal-finance tracker (source: src/main.py).

The backing CSV file is modelled structurally: a file either does not
exist (`none`) or holds a `CSVFile`, a flag saying whether the first
line is the canonical header plus the list of data rows.  Reading with
pandas (`pd.read_csv`) fails with `FileNotFoundError` on a missing
file, with `EmptyDataError` on an existing zero-byte file, and on a
headerless non-empty file silently consumes the first data row as the
header.  Dates are calendar dates `(year, month, day)`; the canonical
on-disk text form is `DD-MM-YYYY` and `datetime.strptime` with format
`"%d-%m-%Y"` is modelled on that canonical fixed-width form, including
day-of-month validation.  Amounts are modelled as rationals.
-/

namespace FinanceTracker

/-- A calendar date, as produced by parsing the `DD-MM-YYYY` text form. -/
structure Date where
  year : Nat
  month : Nat
  day : Nat
deriving DecidableEq

/-- Chronological order on dates (the order `pandas`/`datetime` comparison
uses): lexicographic on (year, month, day). -/
def Date.le (a b : Date) : Prop :=
  a.year < b.year ∨ (a.year = b.year ∧
    (a.month < b.month ∨ (a.month = b.month ∧ a.day ≤ b.day)))

/-- Strict chronological order on dates. -/
def Date.lt (a b : Date) : Prop :=
  a.year < b.year ∨ (a.year = b.year ∧
    (a.month < b.month ∨ (a.month = b.month ∧ a.day < b.day)))

instance (a b : Date) : Decidable (Date.le a b) := by
  unfold Date.le; infer_instance

instance (a b : Date) : Decidable (Date.lt a b) := by
  unfold Date.lt; infer_instance

/-- Leap-year test, as in the Gregorian calendar used by `datetime`. -/
def isLeap (y : Nat) : Bool :=
  (y % 4 == 0 && y % 100 != 0) || (y % 400 == 0)

/-- Number of days of month `m` of year `y` (used by `datetime`'s
day-of-month validation). -/
def daysInMonth (y m : Nat) : Nat :=
  if m = 2 then (if isLeap y then 29 else 28)
  else if m = 4 ∨ m = 6 ∨ m = 9 ∨ m = 11 then 30
  else 31

/-- Value of a decimal digit character, `none` on a non-digit. -/
def digitVal (c : Char) : Option Nat :=
  if c.isDigit then some (c.toNat - 48) else none

/-- Model of `datetime.strptime(s, "%d-%m-%Y")` on the canonical
zero-padded `DD-MM-YYYY` text form: ten characters, two-digit day,
two-digit month, four-digit year, with range validation as performed
by the `datetime` constructor.  Returns `none` where `strptime`
raises `ValueError`. -/
def parseDate (s : String) : Option Date :=
  match s.data with
  | [d1, d2, c1, m1, m2, c2, y1, y2, y3, y4] =>
    if c1 = '-' ∧ c2 = '-' then
      match digitVal d1, digitVal d2, digitVal m1, digitVal m2,
            digitVal y1, digitVal y2, digitVal y3, digitVal y4 with
      | some a1, some a2, some b1, some b2, some e1, some e2, some e3, some e4 =>
        let dd := 10 * a1 + a2
        let mm := 10 * b1 + b2
        let yy := 1000 * e1 + 100 * e2 + 10 * e3 + e4
        if 1 ≤ mm ∧ mm ≤ 12 ∧ 1 ≤ dd ∧ dd ≤ daysInMonth yy mm then
          some ⟨yy, mm, dd⟩
        else none
      | _, _, _, _, _, _, _, _ => none
    else none
  | _ => none

/-- One on-disk transaction row: date still in canonical text form,
amount a rational, category and description free text. -/
structure Row where
  date : String
  amount : ℚ
  category : String
  description : String
deriving DecidableEq

/-- A transaction row after `pd.to_datetime` has parsed its date column. -/
structure ParsedRow where
  date : Date
  amount : ℚ
  category : String
  description : String
deriving DecidableEq

/-- The content of an existing backing CSV file: whether its first line is
the canonical header, and its data rows. -/
structure CSVFile where
  hasHeader : Bool
  rows : List Row
deriving DecidableEq

/-- Errors that propagate out of the pandas/csv calls in `src/main.py`:
`FileNotFoundError`, `pandas.errors.EmptyDataError`, and `ValueError`
from date parsing. -/
inductive Err where
  | fileNotFound
  | emptyData
  | parseError
deriving DecidableEq

/-- Outcome reported by `CSV.update_entry` via its prints. -/
inductive UpdateOutcome where
  | success
  | invalidIndex
deriving DecidableEq

/-- Outcome reported by `CSV.delete_entry` via its prints. -/
inductive DeleteOutcome where
  | success
  | invalidIndex
  | noData
deriving DecidableEq

/-- Model of `pd.read_csv(CSV_FILE)`: `FileNotFoundError` on a missing
file, `EmptyDataError` on an existing zero-byte file, and on a
headerless non-empty file the first data row is consumed as the header. -/
def readCSV : Option CSVFile → Except Err (List Row)
  | none => .error .fileNotFound
  | some c =>
    if c.hasHeader then .ok c.rows
    else
      match c.rows with
      | [] => .error .emptyData
      | _ :: t => .ok t

/-- Model of `CSV.initialize_csv` (src/main.py lines 13-20): try to read
the file; only `FileNotFoundError` is caught, in which case an empty
table with the canonical header is written (`df.to_csv(index=False)`
writes the header line). -/
def initialize_csv (f : Option CSVFile) : Except Err (Option CSVFile) :=
  match f with
  | none => .ok (some ⟨true, []⟩)
  | some c =>
    match readCSV (some c) with
    | .error e => .error e
    | .ok _ => .ok (some c)

/-- Model of `CSV.add_entry` (src/main.py lines 22-34): open in append
mode (which creates a missing file, without writing a header) and write
the single row at the end. -/
def add_entry (f : Option CSVFile) (r : Row) : Option CSVFile :=
  match f with
  | none => some ⟨false, [r]⟩
  | some c => some ⟨c.hasHeader, c.rows ++ [r]⟩

/-- Appending a sequence of rows one after another via `add_entry`. -/
def appendAll (f : Option CSVFile) (rs : List Row) : Option CSVFile :=
  rs.foldl add_entry f

/-- Model of `CSV.update_entry` (src/main.py lines 36-48): read the full
table (read errors propagate, nothing is caught); when
`0 <= index < len(df)` overwrite the four fields of that row and rewrite
the file via `to_csv` (which writes the header); otherwise print
"Invalid index. No entry updated." and leave the file untouched.
Returns the resulting file state and the reported outcome. -/
def update_entry (f : Option CSVFile) (index : Int) (r : Row) :
    Except Err (Option CSVFile × UpdateOutcome) :=
  match readCSV f with
  | .error e => .error e
  | .ok rows =>
    if 0 ≤ index ∧ index < (rows.length : Int) then
      .ok (some ⟨true, rows.set index.toNat r⟩, .success)
    else
      .ok (f, .invalidIndex)

/-- Model of `CSV.delete_entry` (src/main.py lines 50-65): the body is
wrapped in `try`, but only `FileNotFoundError` is caught ("No data
available to delete."); an empty table also reports "No data available
to delete."; with `0 <= index < len(df)` the row is dropped, positions
are renumbered (`reset_index(drop=True)`) and the file rewritten via
`to_csv`; otherwise "Invalid index. No entry deleted.". -/
def delete_entry (f : Option CSVFile) (index : Int) :
    Except Err (Option CSVFile × DeleteOutcome) :=
  match f with
  | none => .ok (none, .noData)
  | some c =>
    match readCSV (some c) with
    | .error e => .error e
    | .ok rows =>
      if rows.isEmpty then
        .ok (some c, .noData)
      else if 0 ≤ index ∧ index < (rows.length : Int) then
        .ok (some ⟨true, rows.eraseIdx index.toNat⟩, .success)
      else
        .ok (some c, .invalidIndex)

/-- Parsing one row's date, as done column-wise by
`pd.to_datetime(df["date"], format=CSV.FORMAT)`. -/
def parseRow (r : Row) : Option ParsedRow :=
  match parseDate r.date with
  | some d => some ⟨d, r.amount, r.category, r.description⟩
  | none => none

/-- Parsing the whole date column: the first malformed date raises
(`ValueError`), which propagates uncaught out of `get_transactions`. -/
def parseAll : List Row → Except Err (List ParsedRow)
  | [] => .ok []
  | r :: rs =>
    match parseRow r with
    | none => .error .parseError
    | some pr =>
      match parseAll rs with
      | .error e => .error e
      | .ok prs => .ok (pr :: prs)

/-- Model of `CSV.get_transactions` (src/main.py lines 67-97): read the
full table (read errors propagate, nothing is caught), parse the date
column, parse both bounds with the same format, keep the rows whose
date `d` satisfies `start_date <= d` and `d <= end_date`
(`mask = (df["date"] >= start_date) & (df["date"] <= end_date)`,
`df.loc[mask]` keeps original order), and report whether any
transaction was found (the "No transaction found in the given date
range." print fires exactly on an empty filtered frame).  Returns the
filtered rows and that found flag. -/
def get_transactions (f : Option CSVFile) (start_date end_date : String) :
    Except Err (List ParsedRow × Bool) :=
  match readCSV f with
  | .error e => .error e
  | .ok rows =>
    match parseAll rows with
    | .error e => .error e
    | .ok prows =>
      match parseDate start_date with
      | none => .error .parseError
      | some sd =>
        match parseDate end_date with
        | none => .error .parseError
        | some ed =>
          let filtered := prows.filter fun r =>
            decide (Date.le sd r.date) && decide (Date.le r.date ed)
          .ok (filtered, !filtered.isEmpty)

/-- Model of `filtered_df[filtered_df["category"] == "Income"]["amount"].sum()`
(src/main.py lines 89-90). -/
def total_income (rows : List ParsedRow) : ℚ :=
  ((rows.filter fun r => r.category == "Income").map fun r => r.amount).sum

/-- Model of `filtered_df[filtered_df["category"] == "Expense"]["amount"].sum()`
(src/main.py lines 91-92). -/
def total_expense (rows : List ParsedRow) : ℚ :=
  ((rows.filter fun r => r.category == "Expense").map fun r => r.amount).sum

/-- Model of the printed net saving, `total_income - total_expense`
(src/main.py line 96). -/
def net_saving (rows : List ParsedRow) : ℚ :=
  total_income rows - total_expense rows

/-- The day total of one category: the sum of the amounts of the rows of
that category dated on day `d`.  This is the value
`df[df["category"] == cat].resample("D").sum().reindex(df.index, fill_value=0)`
carries at an index label `d` (src/main.py lines 132-135): for `d` inside
the resampled range it is the resampled day sum, and for `d` outside the
range the reindex fill value `0`, which coincides with the empty sum. -/
def day_total (cat : String) (rows : List ParsedRow) (d : Date) : ℚ :=
  ((rows.filter fun r => r.category == cat && r.date == d).map fun r => r.amount).sum

/-- The daily series handed to the plot for one category (src/main.py
lines 132-135): the `reindex(df.index, fill_value=0)` call realigns the
resampled day sums to `df.index`, the date index of the filtered frame,
which lists the date of every row in original order, duplicates included.
So the series carries one (date, day total) pair per row. -/
def daily_series (cat : String) (rows : List ParsedRow) : List (Date × ℚ) :=
  rows.map fun r => (r.date, day_total cat rows r.date)

/-- Written from the specification's words, for comparison with
`daily_series`: "one amount per distinct date present in the overall date
index of the filtered set". -/
def spec_daily_series (cat : String) (rows : List ParsedRow) : List (Date × ℚ) :=
  ((rows.map fun r => r.date).dedup).map fun d => (d, day_total cat rows d)

/-! ### Order lemmas for dates -/

theorem Date.le_refl (a : Date) : Date.le a a := by
  unfold Date.le; omega

theorem Date.le_trans {a b c : Date} (h1 : Date.le a b) (h2 : Date.le b c) :
    Date.le a c := by
  unfold Date.le at *
  rcases a with ⟨ay, am, ad⟩
  rcases b with ⟨by_, bm, bd⟩
  rcases c with ⟨cy, cm, cd⟩
  simp only at *
  omega

theorem Date.not_le_of_lt {a b : Date} (h : Date.lt a b) : ¬ Date.le b a := by
  unfold Date.lt at h
  unfold Date.le
  rcases a with ⟨ay, am, ad⟩
  rcases b with ⟨by_, bm, bd⟩
  simp only at *
  omega

/-! ### Lemmas about parsing the date column -/

theorem parseAll_length {rows : List Row} {prows : List ParsedRow}
    (h : parseAll rows = .ok prows) : prows.length = rows.length := by
  induction rows generalizing prows with
  | nil => simp only [parseAll] at h; cases h; rfl
  | cons r rs ih =>
    simp only [parseAll] at h
    cases hr : parseRow r with
    | none => rw [hr] at h; cases h
    | some pr =>
      rw [hr] at h
      cases hrs : parseAll rs with
      | error e => rw [hrs] at h; cases h
      | ok prs =>
        rw [hrs] at h
        cases h
        simp [ih hrs]

theorem parseAll_getElem? {rows : List Row} {prows : List ParsedRow}
    (h : parseAll rows = .ok prows) (k : Nat) :
    (rows[k]?).bind parseRow = prows[k]? := by
  induction rows generalizing prows k with
  | nil => simp only [parseAll] at h; cases h; simp
  | cons r rs ih =>
    simp only [parseAll] at h
    cases hr : parseRow r with
    | none => rw [hr] at h; cases h
    | some pr =>
      rw [hr] at h
      cases hrs : parseAll rs with
      | error e => rw [hrs] at h; cases h
      | ok prs =>
        rw [hrs] at h
        cases h
        cases k with
        | zero => simpa using hr
        | succ k => simpa using ih hrs k

theorem parseAll_append {l1 l2 : List Row} {p1 p2 : List ParsedRow}
    (h1 : parseAll l1 = .ok p1) (h2 : parseAll l2 = .ok p2) :
    parseAll (l1 ++ l2) = .ok (p1 ++ p2) := by
  induction l1 generalizing p1 with
  | nil => simp only [parseAll] at h1; cases h1; simpa using h2
  | cons r rs ih =>
    simp only [parseAll] at h1
    cases hr : parseRow r with
    | none => rw [hr] at h1; cases h1
    | some pr =>
      rw [hr] at h1
      cases hrs : parseAll rs with
      | error e => rw [hrs] at h1; cases h1
      | ok prs =>
        rw [hrs] at h1
        cases h1
        simp only [List.cons_append, parseAll, hr]
        rw [show rs ++ l2 = rs.append l2 from rfl] at ih
        rw [ih hrs]

/-! ### Lemmas about appending -/

theorem appendAll_some (c : CSVFile) (rs : List Row) :
    appendAll (some c) rs = some ⟨c.hasHeader, c.rows ++ rs⟩ := by
  induction rs generalizing c with
  | nil => simp [appendAll]
  | cons r rs ih =>
    simp only [appendAll, List.foldl_cons, add_entry] at *
    rw [ih ⟨c.hasHeader, c.rows ++ [r]⟩]
    simp

theorem readCSV_appendAll {f : Option CSVFile} {rows : List Row}
    (h : readCSV f = .ok rows) (rs : List Row) :
    readCSV (appendAll f rs) = .ok (rows ++ rs) := by
  cases f with
  | none => simp [readCSV] at h
  | some c =>
    rw [appendAll_some]
    simp only [readCSV] at h ⊢
    by_cases hh : c.hasHeader
    · simp only [hh, if_true] at h ⊢
      cases h
      rfl
    · simp only [hh, if_false, Bool.false_eq_true] at h ⊢
      cases hr : c.rows with
      | nil => rw [hr] at h; cases h
      | cons r0 t =>
        rw [hr] at h
        cases h
        simp

/-! ### Claim theorems -/

/-- C2: for every sequence of rows given to the aggregator,
`total_income` sums the amounts of the rows whose category is exactly
"Income" (first two conjuncts give the recursive characterisation),
`total_expense` those whose category is exactly "Expense",
`net_saving` is their difference, the empty input yields all three
values zero, and a row with any other category value contributes to
neither sum and raises no error (removing it changes nothing). -/
theorem summarize_correct :
    (∀ r rest, total_income (r :: rest) =
      (if r.category = "Income" then r.amount else 0) + total_income rest) ∧
    (∀ r rest, total_expense (r :: rest) =
      (if r.category = "Expense" then r.amount else 0) + total_expense rest) ∧
    (∀ rows, net_saving rows = total_income rows - total_expense rows) ∧
    total_income [] = 0 ∧ total_expense [] = 0 ∧ net_saving [] = 0 ∧
    (∀ pre post r, r.category ≠ "Income" →
      total_income (pre ++ r :: post) = total_income (pre ++ post)) ∧
    (∀ pre post r, r.category ≠ "Expense" →
      total_expense (pre ++ r :: post) = total_expense (pre ++ post)) := by
  refine ⟨fun r rest => ?_, fun r rest => ?_, fun rows => rfl, rfl, rfl,
    by simp [net_saving, total_income, total_expense],
    fun pre post r hr => ?_, fun pre post r hr => ?_⟩
  · by_cases h : r.category = "Income" <;>
      simp [total_income, List.filter_cons, h]
  · by_cases h : r.category = "Expense" <;>
      simp [total_expense, List.filter_cons, h]
  · simp [total_income, List.filter_append, List.filter_cons, hr]
  · simp [total_expense, List.filter_append, List.filter_cons, hr]

/-- Witness for C2 at a concrete input: a row of category "Other"
contributes to neither sum. -/
theorem summarize_correct_witness :
    total_income [⟨⟨2024, 1, 1⟩, 5, "Other", "x"⟩] = total_income ([] : List ParsedRow) ∧
    total_expense [⟨⟨2024, 1, 1⟩, 5, "Other", "x"⟩] = total_expense ([] : List ParsedRow) :=
  ⟨summarize_correct.2.2.2.2.2.2.1 [] [] ⟨⟨2024, 1, 1⟩, 5, "Other", "x"⟩ (by decide),
   summarize_correct.2.2.2.2.2.2.2 [] [] ⟨⟨2024, 1, 1⟩, 5, "Other", "x"⟩ (by decide)⟩

/-- C4 counterexample: on an existing table with zero rows (header-only
file), index 0 is out of bounds (0 ≥ row count), yet `delete_entry`
reports the no-data outcome, not the invalid-index outcome the claim
demands for every out-of-bounds index. -/
theorem delete_empty_table_counterexample :
    delete_entry (some ⟨true, []⟩) 0 = .ok (some ⟨true, []⟩, .noData) ∧
    DeleteOutcome.noData ≠ DeleteOutcome.invalidIndex :=
  ⟨rfl, by decide⟩

/-- C4 (amended): for every existing readable table and every index that
is negative or at least the current row count, `update_entry` and
`delete_entry` leave the backing file untouched; `update_entry` reports
the invalid-index outcome, and `delete_entry` reports invalid-index when
the table has rows and the no-data outcome when it has zero rows. -/
theorem invalid_index_no_mutation (c : CSVFile) (rows : List Row) (i : Int) (r : Row)
    (hread : readCSV (some c) = .ok rows)
    (hbad : ¬ (0 ≤ i ∧ i < (rows.length : Int))) :
    update_entry (some c) i r = .ok (some c, .invalidIndex) ∧
    delete_entry (some c) i =
      .ok (some c, if rows.isEmpty then .noData else .invalidIndex) := by
  constructor
  · simp only [update_entry, hread, if_neg hbad]
  · simp only [delete_entry, hread]
    by_cases he : rows.isEmpty
    · simp [he]
    · simp [he, if_neg hbad]

/-- Witness for C4 (amended) at a concrete input: a one-row table with
index 5. -/
theorem invalid_index_no_mutation_witness :
    update_entry (some ⟨true, [⟨"01-01-2024", 3, "Income", "x"⟩]⟩) 5 ⟨"02-01-2024", 4, "Expense", "y"⟩ =
      .ok (some ⟨true, [⟨"01-01-2024", 3, "Income", "x"⟩]⟩, .invalidIndex) ∧
    delete_entry (some ⟨true, [⟨"01-01-2024", 3, "Income", "x"⟩]⟩) 5 =
      .ok (some ⟨true, [⟨"01-01-2024", 3, "Income", "x"⟩]⟩,
        if ([⟨"01-01-2024", 3, "Income", "x"⟩] : List Row).isEmpty then .noData else .invalidIndex) :=
  invalid_index_no_mutation ⟨true, [⟨"01-01-2024", 3, "Income", "x"⟩]⟩
    [⟨"01-01-2024", 3, "Income", "x"⟩] 5 ⟨"02-01-2024", 4, "Expense", "y"⟩ rfl (by decide)

/-- C5 counterexample: with a missing backing file, `get_transactions`
propagates the uncaught `FileNotFoundError` from `pd.read_csv` (line 70
is outside any try block), instead of producing the empty result with
the "no transactions found" report the claim demands. -/
theorem get_transactions_missing_file_counterexample :
    get_transactions none "01-01-2024" "02-01-2024" = .error .fileNotFound ∧
    (Except.error Err.fileNotFound : Except Err (List ParsedRow × Bool)) ≠ .ok ([], false) :=
  ⟨rfl, by simp⟩

/-- C5 (amended): on a missing backing file, `delete_entry` catches the
error and reports no-data, and `add_entry` creates the file (append mode)
holding the one row; but `get_transactions` and `update_entry` read the
file outside any try block, so the `FileNotFoundError` propagates
uncaught. -/
theorem missing_file_behavior (i : Int) (r : Row) (s e : String) :
    delete_entry none i = .ok (none, .noData) ∧
    add_entry none r = some ⟨false, [r]⟩ ∧
    get_transactions none s e = .error .fileNotFound ∧
    update_entry none i r = .error .fileNotFound :=
  ⟨rfl, rfl, rfl, rfl⟩

/-- C7: `initialize_csv` is idempotent: on a fresh environment (missing
file) it creates the backing table with the canonical header and zero
rows, a second call leaves that state identical, reading it back yields
zero rows, and whenever the backing table exists and is readable,
regardless of content, `initialize_csv` does nothing. -/
theorem initialize_idempotent :
    initialize_csv none = .ok (some ⟨true, []⟩) ∧
    initialize_csv (some ⟨true, []⟩) = .ok (some ⟨true, []⟩) ∧
    readCSV (some ⟨true, []⟩) = .ok [] ∧
    (∀ c rows, readCSV (some c) = .ok rows → initialize_csv (some c) = .ok (some c)) := by
  refine ⟨rfl, rfl, rfl, fun c rows h => ?_⟩
  simp only [initialize_csv, h]

/-- Witness for C7 at a concrete input: an existing readable one-row
table is left untouched. -/
theorem initialize_idempotent_witness :
    initialize_csv (some ⟨true, [⟨"01-01-2024", 3, "Income", "x"⟩]⟩) =
      .ok (some ⟨true, [⟨"01-01-2024", 3, "Income", "x"⟩]⟩) :=
  initialize_idempotent.2.2.2 ⟨true, [⟨"01-01-2024", 3, "Income", "x"⟩]⟩
    [⟨"01-01-2024", 3, "Income", "x"⟩] rfl

/-- C8: round-trip through the backing resource: starting from a freshly
initialized store, appending any sequence of rows one by one and
reloading the table yields exactly those rows, field for field, in the
same order. -/
theorem append_reload_roundtrip (rs : List Row) :
    ∃ f0, initialize_csv none = .ok f0 ∧ readCSV (appendAll f0 rs) = .ok rs := by
  refine ⟨some ⟨true, []⟩, rfl, ?_⟩
  have h := readCSV_appendAll
    (show readCSV (some ⟨true, ([] : List Row)⟩) = Except.ok [] from rfl) rs
  simpa using h

/-- C1: for every stored table and canonical bounds with
start_date ≤ end_date, `get_transactions` succeeds and returns exactly
the rows whose parsed date lies in the inclusive range: the result is a
subsequence of the parsed table (same relative order), membership is
characterised by `start ≤ d ≤ end`, a row dated exactly on either bound
is included, and a row strictly outside either bound is excluded; the
parsed table corresponds row by row to the stored one. -/
theorem get_transactions_range_correct
    (f : Option CSVFile) (rows : List Row) (prows : List ParsedRow)
    (s e : String) (sd ed : Date)
    (hread : readCSV f = .ok rows)
    (hparse : parseAll rows = .ok prows)
    (hs : parseDate s = some sd)
    (he : parseDate e = some ed)
    (hse : Date.le sd ed) :
    ∃ res found, get_transactions f s e = .ok (res, found) ∧
      prows.length = rows.length ∧
      (∀ k : Nat, (rows[k]?).bind parseRow = prows[k]?) ∧
      res.Sublist prows ∧
      (∀ pr, pr ∈ res ↔ pr ∈ prows ∧ Date.le sd pr.date ∧ Date.le pr.date ed) ∧
      (∀ pr ∈ prows, (pr.date = sd ∨ pr.date = ed) → pr ∈ res) ∧
      (∀ pr ∈ prows, (Date.lt pr.date sd ∨ Date.lt ed pr.date) → pr ∉ res) := by
  have hmem : ∀ pr : ParsedRow,
      pr ∈ prows.filter (fun r => decide (Date.le sd r.date) && decide (Date.le r.date ed)) ↔
      pr ∈ prows ∧ Date.le sd pr.date ∧ Date.le pr.date ed := by
    intro pr
    simp [List.mem_filter]
  refine ⟨prows.filter (fun r => decide (Date.le sd r.date) && decide (Date.le r.date ed)),
    !(prows.filter (fun r => decide (Date.le sd r.date) && decide (Date.le r.date ed))).isEmpty,
    ?_, parseAll_length hparse, fun k => parseAll_getElem? hparse k,
    List.filter_sublist prows, hmem, fun pr hpr hor => ?_, fun pr hpr hor => ?_⟩
  · simp only [get_transactions, hread, hparse, hs, he]
  · refine (hmem pr).mpr ⟨hpr, ?_, ?_⟩
    · cases hor with
      | inl h => rw [h]; exact Date.le_refl sd
      | inr h => rw [h]; exact hse
    · cases hor with
      | inl h => rw [h]; exact hse
      | inr h => rw [h]; exact Date.le_refl ed
  · intro hin
    have h2 := (hmem pr).mp hin
    cases hor with
    | inl h => exact Date.not_le_of_lt h h2.2.1
    | inr h => exact Date.not_le_of_lt h h2.2.2

/-- Witness for C1 at a concrete input: a three-row table queried over
the range 05-03-2024 to 10-03-2024. -/
theorem get_transactions_range_correct_witness :
    ∃ res found,
      get_transactions (some ⟨true,
          [⟨"05-03-2024", 3, "Income", "a"⟩,
           ⟨"04-03-2024", 7, "Expense", "b"⟩,
           ⟨"10-03-2024", 2, "Income", "c"⟩]⟩) "05-03-2024" "10-03-2024" = .ok (res, found) ∧
      ([⟨⟨2024, 3, 5⟩, 3, "Income", "a"⟩,
        ⟨⟨2024, 3, 4⟩, 7, "Expense", "b"⟩,
        ⟨⟨2024, 3, 10⟩, 2, "Income", "c"⟩] : List ParsedRow).length =
        ([⟨"05-03-2024", 3, "Income", "a"⟩,
          ⟨"04-03-2024", 7, "Expense", "b"⟩,
          ⟨"10-03-2024", 2, "Income", "c"⟩] : List Row).length ∧
      (∀ k : Nat, (([⟨"05-03-2024", 3, "Income", "a"⟩,
          ⟨"04-03-2024", 7, "Expense", "b"⟩,
          ⟨"10-03-2024", 2, "Income", "c"⟩] : List Row)[k]?).bind parseRow =
        ([⟨⟨2024, 3, 5⟩, 3, "Income", "a"⟩,
          ⟨⟨2024, 3, 4⟩, 7, "Expense", "b"⟩,
          ⟨⟨2024, 3, 10⟩, 2, "Income", "c"⟩] : List ParsedRow)[k]?) ∧
      res.Sublist [⟨⟨2024, 3, 5⟩, 3, "Income", "a"⟩,
        ⟨⟨2024, 3, 4⟩, 7, "Expense", "b"⟩,
        ⟨⟨2024, 3, 10⟩, 2, "Income", "c"⟩] ∧
      (∀ pr, pr ∈ res ↔ pr ∈ ([⟨⟨2024, 3, 5⟩, 3, "Income", "a"⟩,
        ⟨⟨2024, 3, 4⟩, 7, "Expense", "b"⟩,
        ⟨⟨2024, 3, 10⟩, 2, "Income", "c"⟩] : List ParsedRow) ∧
        Date.le ⟨2024, 3, 5⟩ pr.date ∧ Date.le pr.date ⟨2024, 3, 10⟩) ∧
      (∀ pr ∈ ([⟨⟨2024, 3, 5⟩, 3, "Income", "a"⟩,
        ⟨⟨2024, 3, 4⟩, 7, "Expense", "b"⟩,
        ⟨⟨2024, 3, 10⟩, 2, "Income", "c"⟩] : List ParsedRow),
        (pr.date = ⟨2024, 3, 5⟩ ∨ pr.date = ⟨2024, 3, 10⟩) → pr ∈ res) ∧
      (∀ pr ∈ ([⟨⟨2024, 3, 5⟩, 3, "Income", "a"⟩,
        ⟨⟨2024, 3, 4⟩, 7, "Expense", "b"⟩,
        ⟨⟨2024, 3, 10⟩, 2, "Income", "c"⟩] : List ParsedRow),
        (Date.lt pr.date ⟨2024, 3, 5⟩ ∨ Date.lt ⟨2024, 3, 10⟩ pr.date) → pr ∉ res) :=
  get_transactions_range_correct
    (some ⟨true,
      [⟨"05-03-2024", 3, "Income", "a"⟩,
       ⟨"04-03-2024", 7, "Expense", "b"⟩,
       ⟨"10-03-2024", 2, "Income", "c"⟩]⟩)
    [⟨"05-03-2024", 3, "Income", "a"⟩,
     ⟨"04-03-2024", 7, "Expense", "b"⟩,
     ⟨"10-03-2024", 2, "Income", "c"⟩]
    [⟨⟨2024, 3, 5⟩, 3, "Income", "a"⟩,
     ⟨⟨2024, 3, 4⟩, 7, "Expense", "b"⟩,
     ⟨⟨2024, 3, 10⟩, 2, "Income", "c"⟩]
    "05-03-2024" "10-03-2024" ⟨2024, 3, 5⟩ ⟨2024, 3, 10⟩
    rfl rfl rfl rfl (by decide)

/-- C3: for every stored table of n rows and every index 0 ≤ i < n,
`delete_entry` succeeds, rewrites the backing file to the table with row
i removed, the new table has n - 1 rows, rows before position i keep
their position, and each row formerly at a position above i moves down
by one. -/
theorem delete_entry_renumbers
    (f : Option CSVFile) (rows : List Row) (i : Int)
    (hread : readCSV f = .ok rows)
    (h0 : 0 ≤ i) (hlt : i < (rows.length : Int)) :
    delete_entry f i = .ok (some ⟨true, rows.eraseIdx i.toNat⟩, .success) ∧
    (rows.eraseIdx i.toNat).length = rows.length - 1 ∧
    (∀ j : Nat, j < i.toNat → (rows.eraseIdx i.toNat)[j]? = rows[j]?) ∧
    (∀ j : Nat, i.toNat ≤ j → (rows.eraseIdx i.toNat)[j]? = rows[j + 1]?) := by
  have hiN : i.toNat < rows.length := by omega
  refine ⟨?_, List.length_eraseIdx_of_lt hiN,
    fun j hj => List.getElem?_eraseIdx_of_lt rows i.toNat j hj,
    fun j hj => List.getElem?_eraseIdx_of_ge rows i.toNat j hj⟩
  cases f with
  | none => simp [readCSV] at hread
  | some c =>
    have hne : ¬ rows.isEmpty := by
      cases rows with
      | nil => simp at hiN
      | cons a l => simp
    simp only [delete_entry, hread, hne, Bool.false_eq_true, if_false]
    rw [if_pos ⟨h0, hlt⟩]

/-- Witness for C3 at a concrete input: deleting position 1 from a
three-row table. -/
theorem delete_entry_renumbers_witness :
    delete_entry (some ⟨true,
        [⟨"01-01-2024", 1, "Income", "a"⟩,
         ⟨"02-01-2024", 2, "Expense", "b"⟩,
         ⟨"03-01-2024", 3, "Income", "c"⟩]⟩) 1 =
      .ok (some ⟨true, ([⟨"01-01-2024", 1, "Income", "a"⟩,
         ⟨"02-01-2024", 2, "Expense", "b"⟩,
         ⟨"03-01-2024", 3, "Income", "c"⟩] : List Row).eraseIdx (1 : Int).toNat⟩, .success) ∧
    (([⟨"01-01-2024", 1, "Income", "a"⟩,
       ⟨"02-01-2024", 2, "Expense", "b"⟩,
       ⟨"03-01-2024", 3, "Income", "c"⟩] : List Row).eraseIdx (1 : Int).toNat).length =
      ([⟨"01-01-2024", 1, "Income", "a"⟩,
        ⟨"02-01-2024", 2, "Expense", "b"⟩,
        ⟨"03-01-2024", 3, "Income", "c"⟩] : List Row).length - 1 ∧
    (∀ j : Nat, j < (1 : Int).toNat →
      (([⟨"01-01-2024", 1, "Income", "a"⟩,
         ⟨"02-01-2024", 2, "Expense", "b"⟩,
         ⟨"03-01-2024", 3, "Income", "c"⟩] : List Row).eraseIdx (1 : Int).toNat)[j]? =
        ([⟨"01-01-2024", 1, "Income", "a"⟩,
          ⟨"02-01-2024", 2, "Expense", "b"⟩,
          ⟨"03-01-2024", 3, "Income", "c"⟩] : List Row)[j]?) ∧
    (∀ j : Nat, (1 : Int).toNat ≤ j →
      (([⟨"01-01-2024", 1, "Income", "a"⟩,
         ⟨"02-01-2024", 2, "Expense", "b"⟩,
         ⟨"03-01-2024", 3, "Income", "c"⟩] : List Row).eraseIdx (1 : Int).toNat)[j]? =
        ([⟨"01-01-2024", 1, "Income", "a"⟩,
          ⟨"02-01-2024", 2, "Expense", "b"⟩,
          ⟨"03-01-2024", 3, "Income", "c"⟩] : List Row)[j + 1]?) :=
  delete_entry_renumbers
    (some ⟨true,
      [⟨"01-01-2024", 1, "Income", "a"⟩,
       ⟨"02-01-2024", 2, "Expense", "b"⟩,
       ⟨"03-01-2024", 3, "Income", "c"⟩]⟩)
    [⟨"01-01-2024", 1, "Income", "a"⟩,
     ⟨"02-01-2024", 2, "Expense", "b"⟩,
     ⟨"03-01-2024", 3, "Income", "c"⟩] 1 rfl (by decide) (by decide)

/-- C10: for every stored table (all dates canonical) and canonical
bounds with start_date strictly after end_date, `get_transactions`
raises no error and returns the empty sequence with the
"no transactions found" report (found flag false). -/
theorem get_transactions_inverted_range
    (f : Option CSVFile) (rows : List Row) (prows : List ParsedRow)
    (s e : String) (sd ed : Date)
    (hread : readCSV f = .ok rows)
    (hparse : parseAll rows = .ok prows)
    (hs : parseDate s = some sd)
    (he : parseDate e = some ed)
    (hlt : Date.lt ed sd) :
    get_transactions f s e = .ok ([], false) := by
  have hnil : prows.filter
      (fun r => decide (Date.le sd r.date) && decide (Date.le r.date ed)) = [] := by
    rw [List.filter_eq_nil_iff]
    intro pr _ hb
    simp only [Bool.and_eq_true, decide_eq_true_eq] at hb
    exact Date.not_le_of_lt hlt (Date.le_trans hb.1 hb.2)
  simp only [get_transactions, hread, hparse, hs, he, hnil, List.isEmpty_nil, Bool.not_true]

/-- Witness for C10 at a concrete input: a one-row table queried with
start 10-03-2024 and end 05-03-2024. -/
theorem get_transactions_inverted_range_witness :
    get_transactions (some ⟨true, [⟨"07-03-2024", 3, "Income", "a"⟩]⟩)
      "10-03-2024" "05-03-2024" = .ok ([], false) :=
  get_transactions_inverted_range
    (some ⟨true, [⟨"07-03-2024", 3, "Income", "a"⟩]⟩)
    [⟨"07-03-2024", 3, "Income", "a"⟩]
    [⟨⟨2024, 3, 7⟩, 3, "Income", "a"⟩]
    "10-03-2024" "05-03-2024" ⟨2024, 3, 10⟩ ⟨2024, 3, 5⟩
    rfl rfl rfl rfl (by decide)

/-- C6 counterexample: on a table that already holds one row, the first
(K = 1) appended row ends up at zero-based position 1, not at position
K - 1 = 0, which is still occupied by the pre-existing row. -/
theorem append_position_counterexample :
    readCSV (appendAll (some ⟨true, [⟨"01-01-2024", 1, "Income", "a"⟩]⟩)
        [⟨"02-01-2024", 2, "Expense", "b"⟩]) =
      .ok [⟨"01-01-2024", 1, "Income", "a"⟩, ⟨"02-01-2024", 2, "Expense", "b"⟩] ∧
    ([⟨"01-01-2024", 1, "Income", "a"⟩, ⟨"02-01-2024", 2, "Expense", "b"⟩] : List Row)[0]? ≠
      some ⟨"02-01-2024", 2, "Expense", "b"⟩ :=
  ⟨rfl, by decide⟩

/-- C6 (amended): appending rows places each at the end of the table, so
on a table that already holds M rows the Kth appended row (1-based) ends
up at zero-based position M + K - 1 for update/delete, and a query over
a range covering all appended rows returns them, after the qualifying
old rows, in the same relative order they were appended. -/
theorem append_at_end
    (f : Option CSVFile) (rows rs : List Row)
    (hread : readCSV f = .ok rows) :
    readCSV (appendAll f rs) = .ok (rows ++ rs) ∧
    (∀ k : Nat, (rows ++ rs)[rows.length + k]? = rs[k]?) ∧
    (∀ s e sd ed prows prs,
      parseDate s = some sd → parseDate e = some ed →
      parseAll rows = .ok prows → parseAll rs = .ok prs →
      (∀ pr ∈ prs, Date.le sd pr.date ∧ Date.le pr.date ed) →
      ∃ oldres : List ParsedRow,
        get_transactions (appendAll f rs) s e =
          .ok (oldres ++ prs, !(oldres ++ prs).isEmpty) ∧
        oldres.Sublist prows) := by
  refine ⟨readCSV_appendAll hread rs, fun k => ?_, ?_⟩
  · rw [List.getElem?_append_right (by omega), Nat.add_sub_cancel_left]
  · intro s e sd ed prows prs hs he hpo hps hin
    refine ⟨prows.filter (fun r => decide (Date.le sd r.date) && decide (Date.le r.date ed)),
      ?_, List.filter_sublist _⟩
    have hall : prs.filter
        (fun r => decide (Date.le sd r.date) && decide (Date.le r.date ed)) = prs := by
      rw [List.filter_eq_self]
      intro pr hpr
      simp only [Bool.and_eq_true, decide_eq_true_eq]
      exact hin pr hpr
    simp only [get_transactions, readCSV_appendAll hread rs, parseAll_append hpo hps,
      hs, he, List.filter_append, hall]

/-- Witness for C6 (amended) at a concrete input: one appended row on a
one-row table, queried over a covering range. -/
theorem append_at_end_witness :
    ∃ oldres : List ParsedRow,
      get_transactions (appendAll (some ⟨true, [⟨"01-01-2024", 1, "Income", "a"⟩]⟩)
          [⟨"05-03-2024", 2, "Expense", "b"⟩]) "01-01-2024" "31-12-2024" =
        Except.ok (oldres ++ ([⟨⟨2024, 3, 5⟩, 2, "Expense", "b"⟩] : List ParsedRow),
          !(oldres ++ ([⟨⟨2024, 3, 5⟩, 2, "Expense", "b"⟩] : List ParsedRow)).isEmpty) ∧
      oldres.Sublist ([⟨⟨2024, 1, 1⟩, 1, "Income", "a"⟩] : List ParsedRow) :=
  (append_at_end (some ⟨true, [⟨"01-01-2024", 1, "Income", "a"⟩]⟩)
      [⟨"01-01-2024", 1, "Income", "a"⟩] [⟨"05-03-2024", 2, "Expense", "b"⟩] rfl).2.2
    "01-01-2024" "31-12-2024" (⟨2024, 1, 1⟩ : Date) (⟨2024, 12, 31⟩ : Date)
    ([⟨⟨2024, 1, 1⟩, 1, "Income", "a"⟩] : List ParsedRow)
    ([⟨⟨2024, 3, 5⟩, 2, "Expense", "b"⟩] : List ParsedRow)
    rfl rfl rfl rfl (by decide)

/-- C9 counterexample: two same-category rows on the same date.  The
filtered set has one distinct date, but the series the code builds
(realigned to `df.index`, which lists that date twice) has two entries,
so it does not have one amount per distinct date. -/
theorem daily_series_counterexample :
    (daily_series "Income"
      [⟨⟨2024, 1, 1⟩, 10, "Income", "a"⟩, ⟨⟨2024, 1, 1⟩, 5, "Income", "b"⟩]).length = 2 ∧
    ((([⟨⟨2024, 1, 1⟩, 10, "Income", "a"⟩, ⟨⟨2024, 1, 1⟩, 5, "Income", "b"⟩] : List ParsedRow).map
      fun r => r.date).dedup).length = 1 ∧
    daily_series "Income"
        [⟨⟨2024, 1, 1⟩, 10, "Income", "a"⟩, ⟨⟨2024, 1, 1⟩, 5, "Income", "b"⟩] ≠
      spec_daily_series "Income"
        [⟨⟨2024, 1, 1⟩, 10, "Income", "a"⟩, ⟨⟨2024, 1, 1⟩, 5, "Income", "b"⟩] := by
  refine ⟨rfl, rfl, fun h => ?_⟩
  have ha : (daily_series "Income"
      [⟨⟨2024, 1, 1⟩, 10, "Income", "a"⟩, ⟨⟨2024, 1, 1⟩, 5, "Income", "b"⟩]).length = 2 := rfl
  have hb : (spec_daily_series "Income"
      [⟨⟨2024, 1, 1⟩, 10, "Income", "a"⟩, ⟨⟨2024, 1, 1⟩, 5, "Income", "b"⟩]).length = 1 := rfl
  rw [h, hb] at ha
  exact absurd ha (by decide)

/-- C9 (amended): for each category the daily-series transformation
produces one amount per entry of the overall date index of the filtered
set — that index lists the date of every row, duplicates included — and
the kth entry pairs the kth row's date with the sum of all same-day
amounts of that category; that sum is zero for a date on which the
category has no entries; when the dates of the filtered set are pairwise
distinct this is exactly one amount per distinct date, as the
specification words it. -/
theorem daily_series_per_index_entry (cat : String) (rows : List ParsedRow) :
    (daily_series cat rows).length = rows.length ∧
    (∀ k : Nat, (daily_series cat rows)[k]? =
      (rows[k]?).map fun r => (r.date, day_total cat rows r.date)) ∧
    (∀ d : Date, (∀ r ∈ rows, r.category = cat → r.date ≠ d) →
      day_total cat rows d = 0) ∧
    ((rows.map fun r => r.date).Nodup →
      daily_series cat rows = spec_daily_series cat rows) := by
  refine ⟨by simp [daily_series], fun k => by simp [daily_series],
    fun d hd => ?_, fun hnd => ?_⟩
  · unfold day_total
    have hnil : rows.filter (fun r => r.category == cat && r.date == d) = [] := by
      rw [List.filter_eq_nil_iff]
      intro r hr hb
      simp only [Bool.and_eq_true, beq_iff_eq] at hb
      exact hd r hr hb.1 hb.2
    rw [hnil]
    rfl
  · unfold daily_series spec_daily_series
    rw [List.dedup_eq_self.mpr hnd, List.map_map]
    rfl

/-- Witness for C9 (amended) at a concrete input: two rows on distinct
dates; the series agrees with the specification's distinct-date form and
the Income total of the Expense-only day is zero. -/
theorem daily_series_per_index_entry_witness :
    daily_series "Income"
        [⟨⟨2024, 1, 1⟩, 10, "Income", "a"⟩, ⟨⟨2024, 1, 2⟩, 5, "Expense", "b"⟩] =
      spec_daily_series "Income"
        [⟨⟨2024, 1, 1⟩, 10, "Income", "a"⟩, ⟨⟨2024, 1, 2⟩, 5, "Expense", "b"⟩] ∧
    day_total "Income"
        [⟨⟨2024, 1, 1⟩, 10, "Income", "a"⟩, ⟨⟨2024, 1, 2⟩, 5, "Expense", "b"⟩] ⟨2024, 1, 2⟩ = 0 :=
  ⟨(daily_series_per_index_entry "Income"
      [⟨⟨2024, 1, 1⟩, 10, "Income", "a"⟩, ⟨⟨2024, 1, 2⟩, 5, "Expense", "b"⟩]).2.2.2 (by decide),
   (daily_series_per_index_entry "Income"
      [⟨⟨2024, 1, 1⟩, 10, "Income", "a"⟩, ⟨⟨2024, 1, 2⟩, 5, "Expense", "b"⟩]).2.2.1
     ⟨2024, 1, 2⟩ (by decide)⟩

end FinanceTracker
